import Mathlib

/-!
Shallow embedding of the handler shadow stack and effect-dispatch engine of
`src/mphnd/mphnd.c` (the multi-prompt handler layer over the libmprompt
prompt substrate), together with proofs about its search, scoping and
transport behaviour.  Frames are embedded as records mirroring the C
structs; the shadow stack is a top-first list for the search claims and an
address-indexed store for the claims about mutation of the thread-local
`_mph_top` cell.
-/

/-- Effect kinds.  Equality is identity (the C type `mph_kind_t` compares
pointers).  The three reserved kinds `MPH_FINALLY`, `MPH_UNDER` and
`MPH_MASK` (mphnd.c lines 42-44) are distinct constructors; user kinds are
numbered. -/
inductive Kind where
  | finallyK : Kind
  | underK : Kind
  | maskK : Kind
  | user : Nat → Kind
deriving DecidableEq

/-- One handler frame as laid out by the installers (mphnd.c lines 52-72).
`hkind` is the header `kind` field; `hdata` the handler-data pointer
(`none` models `NULL`); `hasPrompt` records whether the `prompt` field is
non-`NULL`.  `xfield` is the extension slot that follows the common header:
the `under` field of `mph_handler_under_t` and the `mask` field of
`mph_handler_mask_t` sit at the same offset, so the casts in `mph_find`
read whichever value was stored there.  `xfrom` is the mask frame's `from`
field.  Plain handler frames have no extension slot (`none`); the C code
would read unspecified memory if it ever cast one, which the embedding
renders with a `getD` default. -/
structure Frame where
  hkind : Kind
  hdata : Option Nat
  hasPrompt : Bool
  xfield : Option Kind
  xfrom : Option Nat
deriving DecidableEq

/-- The frame pushed by `mph_linear_handler` (lines 174-179): caller-owned
`hdata`, `prompt = NULL`. -/
def mph_linear_frame (kind : Kind) (hdata : Option Nat) : Frame :=
  { hkind := kind, hdata := hdata, hasPrompt := false, xfield := none, xfrom := none }

/-- The frame built by `mph_start` for `mph_prompt` (lines 258-262): `hdata`
is the freshly reserved region, `prompt` is the new prompt. -/
def mph_prompt_frame (kind : Kind) (hdata : Option Nat) : Frame :=
  { hkind := kind, hdata := hdata, hasPrompt := true, xfield := none, xfrom := none }

/-- The frame pushed by `mph_under` (lines 395-399): header kind
`MPH_UNDER`, `under = u`, `hdata = NULL`. -/
def mph_under_frame (u : Kind) : Frame :=
  { hkind := Kind.underK, hdata := none, hasPrompt := false, xfield := some u, xfrom := none }

/-- The frame pushed by `mph_mask` (lines 412-417).  Line 416 sets the
header kind to `MPH_UNDER` (not `MPH_MASK`); `xfield` holds the `mask`
field, which occupies the same offset as `under`. -/
def mph_mask_frame (m : Kind) (frm : Nat) : Frame :=
  { hkind := Kind.underK, hdata := none, hasPrompt := false, xfield := some m, xfrom := some frm }

/-- Accessor `mph_data` (lines 97-99). -/
def mph_data (h : Frame) : Option Nat :=
  h.hdata

/-- Accessor `mph_kind` (lines 94-96). -/
def mph_kind (h : Frame) : Kind :=
  h.hkind

/-- The search loop of `mph_find` (lines 108-139), over the parent chain
represented top-first as a list.  The last argument is `none` in the normal
state and `some u` while inside the do-while fast-forward of the
`MPH_UNDER` branch (lines 122-127), which only compares header kinds
against `u`; when the match is found the outer loop continues from its
parent.  The `MPH_MASK` branch (lines 129-135) increments the mask level
when the frame's `mask` field equals the searched kind and its `from`
field is at most the current level. -/
def findLoop (kind : Kind) : List Frame → Nat → Option Kind → Option Frame
  | [], _, _ => none
  | h :: rest, maskLevel, some u =>
    if h.hkind = u then findLoop kind rest maskLevel none
    else findLoop kind rest maskLevel (some u)
  | h :: rest, maskLevel, none =>
    if kind = h.hkind then
      if maskLevel = 0 then some h
      else findLoop kind rest (maskLevel - 1) none
    else if h.hkind = Kind.underK then
      findLoop kind rest maskLevel (some (h.xfield.getD Kind.underK))
    else if h.hkind = Kind.maskK then
      findLoop kind rest
        (if h.xfield.getD Kind.underK = kind ∧ h.xfrom.getD 0 ≤ maskLevel then maskLevel + 1
         else maskLevel) none
    else
      findLoop kind rest maskLevel none

/-- `mph_find` (lines 108-139): search from the top of the shadow stack,
starting with `mask_level = 0`. -/
def mph_find (kind : Kind) (stack : List Frame) : Option Frame :=
  findLoop kind stack 0 none

/-- The innermost frame whose header kind is `kind` (plain traversal, used
to state the search properties). -/
def innermost (kind : Kind) : List Frame → Option Frame
  | [] => none
  | h :: rest => if h.hkind = kind then some h else innermost kind rest

/-- The resume envelope `mph_resume_env_t` (lines 299-302):
`{void* result; bool unwind;}`. -/
structure ResumeEnv where
  result : Option Nat
  unwind : Bool
deriving DecidableEq

/-- The envelope built by `mph_resume` and `mph_resume_tail`
(lines 364-372): `{arg, false}`. -/
def mph_resume_env (arg : Option Nat) : ResumeEnv :=
  { result := arg, unwind := false }

/-- The envelope built by `mph_resume_unwind` (lines 374-377):
`{NULL, true}`. -/
def mph_resume_unwind_env : ResumeEnv :=
  { result := none, unwind := true }

/-- What the yield site does with the envelope it receives. -/
inductive YieldOutcome where
  | ret : Option Nat → YieldOutcome
  | unwindRaised : Option Nat → YieldOutcome
deriving DecidableEq

/-- Lines 334-341 of `mph_yield_to_internal`: the yield site inspects the
resume envelope delivered bit-compatibly by the substrate; if `unwind` is
set it raises an unwind to the handler with the identity unwind function
and the envelope's result, otherwise it returns the result. -/
def yieldReceive (renv : ResumeEnv) : YieldOutcome :=
  if renv.unwind then YieldOutcome.unwindRaised renv.result
  else YieldOutcome.ret renv.result

/-- How `mph_resume_drop` disposes of a token: either the continuation is
resumed with an envelope, or the token is released via substrate drop. -/
inductive TokenDisposal where
  | resumedWith : ResumeEnv → TokenDisposal
  | dropped : TokenDisposal
deriving DecidableEq

/-- `mph_resume_drop` (lines 380-388), as a function of the substrate's
`mp_resume_should_unwind` answer: forced unwind via `mph_resume_unwind`
when it holds, substrate `mp_resume_drop` otherwise. -/
def mph_resume_drop (shouldUnwind : Bool) : TokenDisposal :=
  if shouldUnwind then TokenDisposal.resumedWith mph_resume_unwind_env
  else TokenDisposal.dropped

/-- `mph_unwind_fun` (lines 311-314): returns the payload, ignores the
handler data. -/
def mph_unwind_fun (_hdata arg : Option Nat) : Option Nat :=
  arg

/-- `mph_abort_fun` (lines 192-195): drops the resume token and returns
`arg`; by the substrate contract the yield function's return value becomes
the target prompt's result. -/
def mph_abort_fun (arg : Option Nat) : Option Nat :=
  arg

/-- `mph_unwind_to` as compiled for C (lines 231-236, the branch that is
active when this `.c` file is built): it aborts to `target`'s prompt via
`mph_abort_to`, so the prompt's result is `mph_abort_fun arg`, and the
unwind function `ufun` is never referenced by the body.  The second
component counts the invocations of `ufun`, which is `0` here (the comment
at lines 232-234 records the missing invocation). -/
def mph_unwind_to (_target : Nat) (_ufun : Option Nat → Option Nat → Option Nat)
    (arg : Option Nat) : Option Nat × Nat :=
  (mph_abort_fun arg, 0)

/-- The shadow-stack anchor state: the thread-local `_mph_top` cell
(line 84) together with the `parent` field of every frame, frames being
named by addresses. -/
structure HState where
  top : Option Nat
  parentOf : Nat → Option Nat

/-- The install half of `mph_with_handler` (line 169):
`f->parent = _mph_top; _mph_top = f`. -/
def pushHandler (f : Nat) (s : HState) : HState :=
  { top := some f,
    parentOf := fun a => if a = f then s.top else s.parentOf a }

/-- The uninstall half of `mph_with_handler` (line 171):
`_mph_top = f->parent`, reading the parent field at pop time. -/
def popHandler (f : Nat) (s : HState) : HState :=
  { s with top := s.parentOf f }

/-- Lines 320-322 of `mph_yield_to_internal`: save `yield_top := _mph_top`
and detach the slice by `_mph_top := h->parent`.  Returns the saved top
together with the new state. -/
def yieldDetach (h : Nat) (s : HState) : Option Nat × HState :=
  (s.top, { s with top := s.parentOf h })

/-- Lines 330-332 of `mph_yield_to_internal`, executed on re-entry from a
resume: `_mph_top := yield_top` and then `h->parent := _mph_top`, in that
order. -/
def yieldRelink (h : Nat) (yieldTop : Option Nat) (s : HState) : HState :=
  { top := yieldTop,
    parentOf := fun a => if a = h then yieldTop else s.parentOf a }

/-- The initial state of the resume re-entry scenario (spec S2): the
pre-installation top is frame 7; the prompt handler's own frame is
address 0. -/
def resumeScenarioStart : HState :=
  { top := some 7, parentOf := fun _ => none }

/-- The S2 scenario played on the anchor state: install the prompt handler
frame 0, let the body yield to it, resume once, then let the body return
normally (push; detach; relink; pop). -/
def resumeScenarioEnd : HState :=
  popHandler 0
    (yieldRelink 0 (yieldDetach 0 (pushHandler 0 resumeScenarioStart)).1
      (yieldDetach 0 (pushHandler 0 resumeScenarioStart)).2)

/-- Frames that are neither of the searched kind nor scope frames are
walked over by the normal state of the search, leaving the level alone. -/
theorem findLoop_skip_plain (kind : Kind) (pre s : List Frame) (lvl : Nat)
    (hpre : ∀ h ∈ pre, h.hkind ≠ kind ∧ h.hkind ≠ Kind.underK ∧ h.hkind ≠ Kind.maskK) :
    findLoop kind (pre ++ s) lvl none = findLoop kind s lvl none := by
  induction pre with
  | nil => rfl
  | cons f t ih =>
    obtain ⟨h1, h2, h3⟩ := hpre f (List.mem_cons_self f t)
    have hk : ¬(kind = f.hkind) := fun hh => h1 hh.symm
    simp only [List.cons_append, findLoop, if_neg hk, if_neg h2, if_neg h3]
    exact ih (fun h hm => hpre h (List.mem_cons_of_mem f hm))

/-- The fast-forward state skips every frame whose header kind differs from
the sought under kind. -/
theorem findLoop_skip_ffwd (kind u : Kind) (mid s : List Frame) (lvl : Nat)
    (hmid : ∀ h ∈ mid, h.hkind ≠ u) :
    findLoop kind (mid ++ s) lvl (some u) = findLoop kind s lvl (some u) := by
  induction mid with
  | nil => rfl
  | cons f t ih =>
    have h1 := hmid f (List.mem_cons_self f t)
    simp only [List.cons_append, findLoop, if_neg h1]
    exact ih (fun h hm => hmid h (List.mem_cons_of_mem f hm))

/-- Entering an under frame (header kind `MPH_UNDER`) while searching a
different kind switches the loop into the fast-forward state towards the
frame's under field. -/
theorem findLoop_under_step (kind u : Kind) (rest : List Frame) (lvl : Nat)
    (hk : kind ≠ Kind.underK) :
    findLoop kind (mph_under_frame u :: rest) lvl none = findLoop kind rest lvl (some u) := by
  simp [findLoop, mph_under_frame, hk]

/-- The fast-forward state exits at the first frame of the sought kind and
the outer loop continues from its parent. -/
theorem findLoop_ffwd_exit (kind u : Kind) (A : Frame) (rest : List Frame) (lvl : Nat)
    (hA : A.hkind = u) :
    findLoop kind (A :: rest) lvl (some u) = findLoop kind rest lvl none := by
  simp [findLoop, hA]

/-- Over a stack without scope frames, the search at mask level 0 is the
plain innermost-of-kind traversal. -/
theorem findLoop_plain_innermost (kind : Kind) (l : List Frame)
    (hl : ∀ h ∈ l, h.hkind ≠ Kind.underK ∧ h.hkind ≠ Kind.maskK) :
    findLoop kind l 0 none = innermost kind l := by
  induction l with
  | nil => rfl
  | cons f t ih =>
    obtain ⟨h2, h3⟩ := hl f (List.mem_cons_self f t)
    by_cases hk : kind = f.hkind
    · simp [findLoop, innermost, hk]
    · have hk2 : ¬(f.hkind = kind) := fun hh => hk hh.symm
      simp only [findLoop, if_neg hk, if_neg h2, if_neg h3, innermost, if_neg hk2]
      exact ih (fun h hm => hl h (List.mem_cons_of_mem f hm))

/-- A frame returned by the innermost-of-kind traversal is on the stack. -/
theorem innermost_mem (kind : Kind) (l : List Frame) (x : Frame)
    (hx : innermost kind l = some x) : x ∈ l := by
  induction l with
  | nil => exact absurd hx (by simp [innermost])
  | cons f t ih =>
    by_cases hk : f.hkind = kind
    · have : f = x := by simpa [innermost, hk] using hx
      exact this ▸ List.mem_cons_self f t
    · have hx2 : innermost kind t = some x := by simpa [innermost, hk] using hx
      exact List.mem_cons_of_mem f (ih hx2)

/-- Claim C5: with two handlers of the same kind `K` nested `A` outer and
`B` inner, and only frames of other kinds (and no scope frames) between the
search point, `B`, and `A`, the search inside `B`'s scope returns `B`, and
the search run after `B`'s frame is popped returns `A`. -/
theorem find_innermost_wins (K : Kind) (A B : Frame) (pre mid rest : List Frame)
    (hB : B.hkind = K) (hA : A.hkind = K)
    (hpre : ∀ h ∈ pre, h.hkind ≠ K ∧ h.hkind ≠ Kind.underK ∧ h.hkind ≠ Kind.maskK)
    (hmid : ∀ h ∈ mid, h.hkind ≠ K ∧ h.hkind ≠ Kind.underK ∧ h.hkind ≠ Kind.maskK) :
    mph_find K (pre ++ B :: (mid ++ A :: rest)) = some B ∧
    mph_find K (mid ++ A :: rest) = some A := by
  constructor
  · unfold mph_find
    rw [findLoop_skip_plain K pre _ 0 hpre]
    simp [findLoop, hB]
  · unfold mph_find
    rw [findLoop_skip_plain K mid _ 0 hmid]
    simp [findLoop, hA]

/-- Witness for C5 at a concrete stack: kind `user 0` nested inside
`user 1` and `user 2` frames; the inner `user 0` handler carries data 1,
the outer one data 2. -/
theorem find_innermost_wins_holds :
    mph_find (Kind.user 0)
      ([mph_prompt_frame (Kind.user 1) none] ++
        mph_prompt_frame (Kind.user 0) (some 1) ::
          ([mph_linear_frame (Kind.user 2) none] ++
            mph_prompt_frame (Kind.user 0) (some 2) :: [])) =
      some (mph_prompt_frame (Kind.user 0) (some 1)) ∧
    mph_find (Kind.user 0)
      ([mph_linear_frame (Kind.user 2) none] ++
        mph_prompt_frame (Kind.user 0) (some 2) :: []) =
      some (mph_prompt_frame (Kind.user 0) (some 2)) :=
  find_innermost_wins (Kind.user 0) (mph_prompt_frame (Kind.user 0) (some 2))
    (mph_prompt_frame (Kind.user 0) (some 1)) [mph_prompt_frame (Kind.user 1) none]
    [mph_linear_frame (Kind.user 2) none] [] (by decide) (by decide) (by decide) (by decide)

/-- Claim C4: inside `under(K, body)`, with `A` the innermost `K`-kind
handler outward of the under frame, the search for `K` fast-forwards to `A`
and continues past it: it returns the innermost `K` handler outside `A`
(or none), and never `A` itself. -/
theorem find_under_hides (K : Kind) (A : Frame) (pre mid rest : List Frame)
    (hK : K ≠ Kind.underK)
    (hpre : ∀ h ∈ pre, h.hkind ≠ K ∧ h.hkind ≠ Kind.underK ∧ h.hkind ≠ Kind.maskK)
    (hmid : ∀ h ∈ mid, h.hkind ≠ K)
    (hA : A.hkind = K)
    (hrest : ∀ h ∈ rest, h.hkind ≠ Kind.underK ∧ h.hkind ≠ Kind.maskK)
    (hApos : A ∉ rest) :
    mph_find K (pre ++ mph_under_frame K :: (mid ++ A :: rest)) = innermost K rest ∧
    mph_find K (pre ++ mph_under_frame K :: (mid ++ A :: rest)) ≠ some A := by
  have key : mph_find K (pre ++ mph_under_frame K :: (mid ++ A :: rest)) = innermost K rest := by
    unfold mph_find
    rw [findLoop_skip_plain K pre _ 0 hpre, findLoop_under_step K K _ 0 hK,
      findLoop_skip_ffwd K K mid _ 0 hmid, findLoop_ffwd_exit K K A rest 0 hA,
      findLoop_plain_innermost K rest hrest]
  refine ⟨key, ?_⟩
  rw [key]
  intro hcontra
  exact hApos (innermost_mem K rest A hcontra)

/-- Witness for C4 at a concrete stack: an under frame for `user 0` above a
`user 1` frame, the hidden `user 0` handler (data 1), and an outer `user 0`
handler (data 2); the search lands on the outer one. -/
theorem find_under_hides_holds :
    mph_find (Kind.user 0)
      ([mph_prompt_frame (Kind.user 9) none] ++
        mph_under_frame (Kind.user 0) ::
          ([mph_linear_frame (Kind.user 1) none] ++
            mph_prompt_frame (Kind.user 0) (some 1) ::
              [mph_prompt_frame (Kind.user 0) (some 2)])) =
      innermost (Kind.user 0) [mph_prompt_frame (Kind.user 0) (some 2)] ∧
    mph_find (Kind.user 0)
      ([mph_prompt_frame (Kind.user 9) none] ++
        mph_under_frame (Kind.user 0) ::
          ([mph_linear_frame (Kind.user 1) none] ++
            mph_prompt_frame (Kind.user 0) (some 1) ::
              [mph_prompt_frame (Kind.user 0) (some 2)])) ≠
      some (mph_prompt_frame (Kind.user 0) (some 1)) :=
  find_under_hides (Kind.user 0) (mph_prompt_frame (Kind.user 0) (some 1))
    [mph_prompt_frame (Kind.user 9) none] [mph_linear_frame (Kind.user 1) none]
    [mph_prompt_frame (Kind.user 0) (some 2)] (by decide) (by decide) (by decide)
    (by decide) (by decide) (by decide)

/-- Claim C1, evaluated at the failing input: because `mph_mask` labels its
frame `MPH_UNDER` (line 416), a mask for kind `user 0` makes a search for
the different kind `user 1` take the fast-forward branch: the `user 1`
handler between the mask frame and the `user 0` handler is skipped and the
search returns none, while the same search without the mask frame returns
that handler. -/
theorem find_mask_mislabel_eval :
    mph_find (Kind.user 1)
      [mph_mask_frame (Kind.user 0) 0, mph_prompt_frame (Kind.user 1) none,
        mph_prompt_frame (Kind.user 0) none] = none ∧
    mph_find (Kind.user 1)
      [mph_prompt_frame (Kind.user 1) none, mph_prompt_frame (Kind.user 0) none] =
      some (mph_prompt_frame (Kind.user 1) none) := by
  decide

/-- Claim C10: a search for the reserved `MPH_UNDER` kind hits the header
kind equality test before the fast-forward branch, and therefore returns
the innermost frame with header kind `MPH_UNDER` - here a frame installed
by `mph_mask`, and also one installed by `mph_under`. -/
theorem find_under_sentinel_eval :
    mph_find Kind.underK
      [mph_linear_frame (Kind.user 3) none, mph_mask_frame (Kind.user 0) 2,
        mph_under_frame (Kind.user 1)] = some (mph_mask_frame (Kind.user 0) 2) ∧
    mph_find Kind.underK [mph_under_frame (Kind.user 1)] =
      some (mph_under_frame (Kind.user 1)) := by
  decide

/-- Claim C9: frames installed by `mph_under` and `mph_mask` carry a NULL
`hdata` (lines 399 and 417), so `mph_data` on them is none, while a linear
handler frame carries exactly the caller-supplied `hdata`. -/
theorem scope_frames_carry_no_hdata (u m : Kind) (frm : Nat) (k : Kind) (hd : Option Nat) :
    mph_data (mph_under_frame u) = none ∧
    mph_data (mph_mask_frame m frm) = none ∧
    mph_data (mph_linear_frame k hd) = hd :=
  ⟨rfl, rfl, rfl⟩

/-- Claim C6: a resume with payload `q` builds the envelope
`{q, unwind = false}`, and the yield site, receiving it, returns exactly
`q`. -/
theorem yield_resume_round_trip (q : Option Nat) :
    yieldReceive (mph_resume_env q) = YieldOutcome.ret q :=
  rfl

/-- Claim C7: the yield protocol sets `TOP` to `h.parent` before the
substrate yield, saving the yield-site top; on re-entry from a resume in
any context (`sResume`, possibly a different shadow stack), `TOP` is
restored to the saved yield-site value and `h.parent` is re-set from the
then-current `TOP`, so the detach is paired with a reattach of `TOP`. -/
theorem yield_detach_reattach (h : Nat) (s sResume : HState) :
    (yieldDetach h s).2.top = s.parentOf h ∧
    (yieldDetach h s).1 = s.top ∧
    (yieldRelink h (yieldDetach h s).1 sResume).top = s.top ∧
    (yieldRelink h (yieldDetach h s).1 sResume).parentOf h =
      (yieldRelink h (yieldDetach h s).1 sResume).top := by
  refine ⟨rfl, rfl, rfl, ?_⟩
  simp [yieldRelink, yieldDetach]

/-- Claim C8: `mph_resume_drop` performs the forced unwind - resuming with
the `mph_resume_unwind` envelope, which has a null result and the unwind
flag set - exactly when the substrate reports `should_unwind`, and
otherwise releases the token via substrate drop without resuming. -/
theorem resume_drop_disposal (b : Bool) :
    (mph_resume_drop b = TokenDisposal.resumedWith mph_resume_unwind_env ↔ b = true) ∧
    (mph_resume_drop b = TokenDisposal.dropped ↔ b = false) ∧
    mph_resume_unwind_env.result = none ∧ mph_resume_unwind_env.unwind = true := by
  cases b <;> simp [mph_resume_drop, mph_resume_unwind_env]

/-- Claim C2, evaluated at the failing input: a prompt handler frame 0 is
installed while `TOP` is frame 7; its body yields to frame 0, the handler
side resumes once, and the body then returns normally.  Lines 331-332
re-set `h->parent` to the already-restored `TOP` (frame 0 itself), so the
`mph_with_handler` pop publishes frame 0: `TOP` after the installation is
not the pre-installation frame 7. -/
theorem top_not_restored_after_resume :
    resumeScenarioStart.top = some 7 ∧
    resumeScenarioEnd.top = some 0 ∧
    resumeScenarioEnd.top ≠ resumeScenarioStart.top :=
  ⟨rfl, rfl, by decide⟩

/-- Claim C3, evaluated at the failing input: the C-build unwind transport
(the active branch of this `.c` file) aborts straight to the target prompt
with the raw payload and never invokes the unwind function.  On the token
raised at a yield site (`fun = mph_unwind_fun`, `arg = 5`) the invocation
count is 0, not 1; a handler-data-observing unwind function (here one that
returns the hdata, which is 9 at the target) is likewise skipped, the
prompt producing 5 instead of 9. -/
theorem unwind_fun_not_invoked :
    mph_unwind_to 0 mph_unwind_fun (some 5) = (some 5, 0) ∧
    mph_unwind_to 0 (fun hdata _ => hdata) (some 5) = (some 5, 0) ∧
    (fun hdata _ => hdata : Option Nat → Option Nat → Option Nat) (some 9) (some 5) = some 9 :=
  ⟨rfl, rfl, rfl⟩
